import Mathlib

/-!
Shallow embedding of the expert-panel-simulator core
(src/utils/llm_provider.py and src/expert_panel_simulator.py).

Python is dynamically typed; numeric values flowing through the provider
layer are mixtures of ints and floats (e.g. the fallback token counter
returns `len(text.split()) * 1.3`, a float, even though the dataclass
declares int fields).  We model all such numbers as rationals, with float
literals read exactly (1.3 = 13/10); none of the claims below hinges on
binary floating-point rounding error.
-/

namespace ExpertPanel

/-- `TokenUsage` dataclass (llm_provider.py lines 29-41): three fields, each
defaulting to 0.  The fields are declared `int` but the Anthropic path stores
the non-integral results of the fallback token counter, so we use `ℚ`. -/
structure TokenUsage where
  prompt_tokens : ℚ := 0
  completion_tokens : ℚ := 0
  total_tokens : ℚ := 0
deriving DecidableEq, Repr

/-- `TokenUsage.__add__`: componentwise addition of the three fields. -/
def TokenUsage.add (a b : TokenUsage) : TokenUsage :=
  { prompt_tokens := a.prompt_tokens + b.prompt_tokens
    completion_tokens := a.completion_tokens + b.completion_tokens
    total_tokens := a.total_tokens + b.total_tokens }

instance : Add TokenUsage := ⟨TokenUsage.add⟩

/-- The default-constructed `TokenUsage()`: all fields 0. -/
def TokenUsage.zero : TokenUsage := {}

/-- `LLMResponse` dataclass (llm_provider.py lines 44-52). -/
structure LLMResponse where
  content : String
  model : String
  tokens : TokenUsage
  cost : ℚ
  latency : ℚ
  provider : String
deriving DecidableEq, Repr

/-- One entry of the canonical message list: `{role, content}`. -/
structure Message where
  role : String
  content : String
deriving DecidableEq, Repr

/-- Number of words of a character list in the sense of Python `str.split()`:
maximal runs of non-whitespace characters. The Bool flag records whether the
previous character was inside a word. -/
def wordCountAux : List Char → Bool → Nat
  | [], _ => 0
  | c :: cs, inWord =>
    if c.isWhitespace then wordCountAux cs false
    else (if inWord then 0 else 1) + wordCountAux cs true

/-- `len(text.split())` for a Python string. -/
def wordCount (s : String) : Nat := wordCountAux s.data false

/-- `OpenAIProvider.__init__` state that matters to the embedded operations:
the model id plus the sampling defaults (`api_key`/`client` are only handles
to the backend, which we model as an oracle argument to `generate`). -/
structure OpenAIProvider where
  model : String := "gpt-4o"
  temperature : ℚ := 0.7
  max_tokens : ℤ := 4000
deriving DecidableEq, Repr

/-- `self.pricing` of `OpenAIProvider` (llm_provider.py lines 82-87),
per 1K tokens, in registration order. -/
def openaiPricing : List (String × ℚ × ℚ) :=
  [("gpt-4o", (0.0025, 0.010)),
   ("gpt-4o-2024-08-06", (0.0025, 0.010)),
   ("gpt-4-turbo", (0.010, 0.030)),
   ("gpt-3.5-turbo", (0.0005, 0.0015))]

/-- The entry `self.pricing["gpt-4o"]` used as the `.get` default. -/
def openaiDefaultPrice : ℚ × ℚ := (0.0025, 0.010)

/-- `self.pricing.get(self.model, self.pricing["gpt-4o"])`. -/
def OpenAIProvider.priceEntry (p : OpenAIProvider) : ℚ × ℚ :=
  (List.lookup p.model openaiPricing).getD openaiDefaultPrice

/-- `OpenAIProvider.estimate_cost` (lines 124-131):
`(prompt/1000)*input + (completion/1000)*output` for the resolved entry. -/
def OpenAIProvider.estimate_cost (p : OpenAIProvider) (tokens : TokenUsage) : ℚ :=
  tokens.prompt_tokens / 1000 * p.priceEntry.1
    + tokens.completion_tokens / 1000 * p.priceEntry.2

/-- `OpenAIProvider.count_tokens` (lines 133-143).  When tiktoken resolves the
model it returns that exact integer count; otherwise the fallback
`len(text.split()) * 1.3`, an unrounded float. -/
def OpenAIProvider.count_tokens (_ : OpenAIProvider)
    (tiktokenCount : Option Nat) (text : String) : ℚ :=
  match tiktokenCount with
  | some n => (n : ℚ)
  | none => (wordCount text : ℚ) * 1.3

/-- The usage block of a chat-completions backend response. -/
structure ChatUsage where
  prompt_tokens : Nat
  completion_tokens : Nat
  total_tokens : Nat
deriving DecidableEq, Repr

/-- A successful chat-completions backend response: first-choice content plus
the reported usage block. -/
structure ChatResponse where
  content : String
  usage : ChatUsage
deriving DecidableEq, Repr

/-- `OpenAIProvider.generate` (lines 89-122).  The backend call is an oracle
argument: `.ok` is a normal response, `.error` a raised exception from the
client library; `latency` is the measured wall-clock time.  The usage triple
is copied verbatim from the backend report. -/
def OpenAIProvider.generate (p : OpenAIProvider)
    (backend : Except String ChatResponse) (latency : ℚ) :
    Except String LLMResponse :=
  match backend with
  | .error e => .error ("OpenAI API error: " ++ e)
  | .ok r =>
    let tokens : TokenUsage :=
      { prompt_tokens := (r.usage.prompt_tokens : ℚ)
        completion_tokens := (r.usage.completion_tokens : ℚ)
        total_tokens := (r.usage.total_tokens : ℚ) }
    .ok { content := r.content
          model := p.model
          tokens := tokens
          cost := p.estimate_cost tokens
          latency := latency
          provider := "openai" }

/-- `AnthropicProvider.__init__` state that matters here. -/
structure AnthropicProvider where
  model : String := "claude-3-5-sonnet-20241022"
  temperature : ℚ := 0.7
  max_tokens : ℤ := 4000
deriving DecidableEq, Repr

/-- `self.pricing` of `AnthropicProvider` (lines 159-163). -/
def anthropicPricing : List (String × ℚ × ℚ) :=
  [("claude-3-5-sonnet-20241022", (0.003, 0.015)),
   ("claude-3-opus-20240229", (0.015, 0.075)),
   ("claude-3-haiku-20240307", (0.00025, 0.00125))]

/-- The entry `self.pricing["claude-3-5-sonnet-20241022"]` used as default. -/
def anthropicDefaultPrice : ℚ × ℚ := (0.003, 0.015)

/-- `self.pricing.get(self.model, self.pricing["claude-3-5-sonnet-20241022"])`. -/
def AnthropicProvider.priceEntry (p : AnthropicProvider) : ℚ × ℚ :=
  (List.lookup p.model anthropicPricing).getD anthropicDefaultPrice

/-- `AnthropicProvider.estimate_cost` (lines 220-227). -/
def AnthropicProvider.estimate_cost (p : AnthropicProvider) (tokens : TokenUsage) : ℚ :=
  tokens.prompt_tokens / 1000 * p.priceEntry.1
    + tokens.completion_tokens / 1000 * p.priceEntry.2

/-- `AnthropicProvider.count_tokens` (lines 229-232): always the fallback
`len(text.split()) * 1.3`. -/
def AnthropicProvider.count_tokens (_ : AnthropicProvider) (text : String) : ℚ :=
  (wordCount text : ℚ) * 1.3

/-- The system-message extraction loop of `AnthropicProvider.generate`
(lines 169-177): the last system message wins; the other messages keep
their order. -/
def extractSystem (messages : List Message) : Option String × List Message :=
  messages.foldl
    (fun acc m =>
      if m.role = "system" then (some m.content, acc.2)
      else (acc.1, acc.2 ++ [m]))
    (none, [])

/-- `prompt_text` as rebuilt by `AnthropicProvider.generate` (lines 193-195):
the system message (or empty) followed by every filtered message content,
concatenated with no separator. -/
def anthropicPromptText (messages : List Message) : String :=
  let (sys, filtered) := extractSystem messages
  filtered.foldl (fun acc m => acc ++ m.content) (sys.getD "")

/-- `AnthropicProvider.generate` (lines 165-218).  The backend call is an
oracle returning the completion text (`response.content[0].text`) or a raised
exception.  Token usage is estimated with the fallback counter; note the
total is counted over the concatenation `prompt_text + completion_text`. -/
def AnthropicProvider.generate (p : AnthropicProvider) (messages : List Message)
    (backend : Except String String) (latency : ℚ) :
    Except String LLMResponse :=
  match backend with
  | .error e => .error ("Anthropic API error: " ++ e)
  | .ok completion_text =>
    let prompt_text := anthropicPromptText messages
    let tokens : TokenUsage :=
      { prompt_tokens := p.count_tokens prompt_text
        completion_tokens := p.count_tokens completion_text
        total_tokens := p.count_tokens (prompt_text ++ completion_text) }
    .ok { content := completion_text
          model := p.model
          tokens := tokens
          cost := p.estimate_cost tokens
          latency := latency
          provider := "anthropic" }

/-- The initialization environment of `LLMManager._initialize_providers`
(lines 248-277): for each vendor, whether the branch is attempted (API key
configured and library importable) and whether the adapter constructor
succeeds (its exceptions are absorbed with a logged warning). -/
structure InitEnv where
  openaiAttempt : Bool
  openaiSuccess : Bool
  anthropicAttempt : Bool
  anthropicSuccess : Bool
deriving DecidableEq, Repr

/-- The provider ids registered by `_initialize_providers`, in registration
order: the OpenAI branch runs first, then the Anthropic branch. -/
def initProviders (e : InitEnv) : List String :=
  (if e.openaiAttempt && e.openaiSuccess then ["openai"] else [])
    ++ (if e.anthropicAttempt && e.anthropicSuccess then ["anthropic"] else [])

/-- `LLMManager` state: `config.get("PRIMARY_PROVIDER")`, the registered
provider ids in registration order, and the session accumulator
(`total_usage`, `total_cost`, `call_count`).  `session_start` is kept outside
the state: elapsed time is an explicit argument of `getAnalytics`. -/
structure LLMManager where
  primary_provider : Option String
  providers : List String
  total_usage : TokenUsage
  total_cost : ℚ
  call_count : Nat
deriving DecidableEq, Repr

/-- `LLMManager.__init__` (lines 238-246 plus `_initialize_providers`):
raises (here `.error`) when no provider could be constructed, otherwise
yields a manager with a fresh accumulator. -/
def mkManager (primary : Option String) (e : InitEnv) : Except String LLMManager :=
  let ps := initProviders e
  if ps.isEmpty then
    .error "No LLM providers available. Check your API keys and installations."
  else
    .ok { primary_provider := primary
          providers := ps
          total_usage := {}
          total_cost := 0
          call_count := 0 }

/-- The provider-resolution prefix of `LLMManager.generate` (lines 279-291):
the requested id, else `config.get("PRIMARY_PROVIDER", "anthropic")`; an id
missing from `self.providers` falls back to the first registered id with a
printed warning (the Bool), or raises when no provider is registered. -/
def LLMManager.resolve (m : LLMManager) (requested : Option String) :
    Except String (String × Bool) :=
  let provider := requested.getD (m.primary_provider.getD "anthropic")
  if provider ∈ m.providers then .ok (provider, false)
  else
    match m.providers with
    | [] => .error "No LLM providers available"
    | p :: _ => .ok (p, true)

/-- `LLMManager.generate` (lines 279-301).  `call` is the dispatch to the
resolved adapter (`self.providers[provider].generate(...)`), an oracle that
either returns a response or raises.  On success the accumulator is updated
in place (usage, cost, call count); a raised call propagates before any of
the three updates run.  The Bool reports whether a fallback warning was
printed. -/
def LLMManager.generate (m : LLMManager) (requested : Option String)
    (call : String → Except String LLMResponse) :
    Except String (LLMManager × LLMResponse × Bool) :=
  match m.resolve requested with
  | .error e => .error e
  | .ok (provider, warned) =>
    match call provider with
    | .error e => .error e
    | .ok response =>
      .ok ({ m with
              total_usage := m.total_usage + response.tokens
              total_cost := m.total_cost + response.cost
              call_count := m.call_count + 1 },
           response, warned)

/-- A session of consecutive successful calls: each element of `rs` is the
response the dispatched adapter returns for that call (requested provider
omitted, as the simulator does). -/
def LLMManager.runOk (m : LLMManager) (rs : List LLMResponse) :
    Except String LLMManager :=
  match rs with
  | [] => .ok m
  | r :: rest =>
    match m.generate none (fun _ => .ok r) with
    | .error e => .error e
    | .ok (m', _, _) => m'.runOk rest

/-- Python `round` on a number already scaled to an integer position:
round-half-to-even (banker's rounding). -/
def roundHalfEven (x : ℚ) : ℤ :=
  if x - (⌊x⌋ : ℚ) < 1 / 2 then ⌊x⌋
  else if (1 / 2 : ℚ) < x - (⌊x⌋ : ℚ) then ⌊x⌋ + 1
  else if ⌊x⌋ % 2 = 0 then ⌊x⌋ else ⌊x⌋ + 1

/-- Python `round(x, ndigits)`. -/
def pyRound (x : ℚ) (ndigits : Nat) : ℚ :=
  (roundHalfEven (x * (10 : ℚ) ^ ndigits) : ℚ) / (10 : ℚ) ^ ndigits

/-- The analytics snapshot built by `LLMManager.get_analytics`
(lines 303-330), flattened: `session_info`, `token_usage`, `costs`,
`performance`. -/
structure Analytics where
  duration_minutes : ℚ
  total_calls : Nat
  providers_used : List String
  primary_provider : String
  prompt_tokens : ℚ
  completion_tokens : ℚ
  total_tokens : ℚ
  total_cost_usd : ℚ
  average_cost_per_call : ℚ
  estimated_cost_per_1k_tokens : ℚ
  calls_per_minute : ℚ
  tokens_per_minute : ℚ
deriving DecidableEq, Repr

/-- `LLMManager.get_analytics` (lines 303-330).  `elapsed` is
`time.time() - self.session_start` in seconds at the moment of the call; it
is the only input besides the manager state. -/
def LLMManager.getAnalytics (m : LLMManager) (elapsed : ℚ) : Analytics :=
  { duration_minutes := pyRound (elapsed / 60) 2
    total_calls := m.call_count
    providers_used := m.providers
    primary_provider := m.primary_provider.getD "unknown"
    prompt_tokens := m.total_usage.prompt_tokens
    completion_tokens := m.total_usage.completion_tokens
    total_tokens := m.total_usage.total_tokens
    total_cost_usd := pyRound m.total_cost 4
    average_cost_per_call := pyRound (m.total_cost / max (m.call_count : ℚ) 1) 4
    estimated_cost_per_1k_tokens :=
      pyRound (m.total_cost / max (m.total_usage.total_tokens / 1000) 1) 4
    calls_per_minute := pyRound ((m.call_count : ℚ) / max (elapsed / 60) 1) 2
    tokens_per_minute :=
      pyRound (m.total_usage.total_tokens / max (elapsed / 60) 1) 0 }

/-- Modelled from the spec: the round-robin turn loop of the Discussion
Scheduler (spec section 4.3).  The loop itself lives in the external autogen
library (`GroupChat` with `speaker_selection_method="round_robin"` and
`max_round`, configured in `ExpertPanelSimulator.run_simulation`); repository
code supplies the roster order and the turn ceiling.  `turn` is the index of
the current turn, `fuel` the remaining turns; each turn asks the oracle for
the current speaker's reply and appends it to the transcript, and the first
raised provider error aborts the run. -/
def runTurnsFrom (roster : List String) (oracle : Nat → Except String String) :
    Nat → Nat → Except String (List (String × String))
  | _, 0 => .ok []
  | turn, fuel + 1 =>
    let speaker := roster.getD (turn % roster.length) ""
    match oracle turn with
    | .error e => .error e
    | .ok content =>
      match runTurnsFrom roster oracle (turn + 1) fuel with
      | .error e => .error e
      | .ok rest => .ok ((speaker, content) :: rest)

/-- Modelled from the spec: a full scheduled run of `ceiling` turns starting
at turn 0. -/
def runTurns (roster : List String) (ceiling : Nat)
    (oracle : Nat → Except String String) :
    Except String (List (String × String)) :=
  runTurnsFrom roster oracle 0 ceiling

/-- The value `ExpertPanelSimulator.run_simulation` returns
(expert_panel_simulator.py lines 257-282): on success a summary built around
the extracted transcript, on any exception the dict `{"error": str(e)}`,
which carries only the message. -/
inductive SimResult where
  | summary (transcript : List (String × String)) : SimResult
  | failure (errorMessage : String) : SimResult
deriving DecidableEq, Repr

/-- The transcript entries carried by a `run_simulation` result: the error
dict has no transcript key, hence no entries. -/
def SimResult.entries : SimResult → List (String × String)
  | .summary t => t
  | .failure _ => []

/-- `ExpertPanelSimulator.run_simulation` around the chat loop: the try block
runs the scheduled conversation (modelled by `runTurns`); the except branch
catches any exception and returns the error-only dict. -/
def run_simulation (roster : List String) (ceiling : Nat)
    (oracle : Nat → Except String String) : SimResult :=
  match runTurns roster ceiling oracle with
  | .ok transcript => .summary transcript
  | .error e => .failure e

/-! Concrete instances used to evaluate the embedded operations. -/

/-- An OpenAI adapter with the constructor defaults. -/
def op0 : OpenAIProvider := {}

/-- An Anthropic adapter with the constructor defaults. -/
def ap0 : AnthropicProvider := {}

/-- An OpenAI adapter whose model id is absent from its pricing table. -/
def opUnknown : OpenAIProvider := { model := "unknown-model" }

/-- An Anthropic adapter whose model id is absent from its pricing table. -/
def apUnknown : AnthropicProvider := { model := "unknown-model" }

/-- A manager mid-session: two calls recorded, one registered provider. -/
def m0a : LLMManager :=
  { primary_provider := some "openai"
    providers := ["openai"]
    total_usage := ⟨100, 100, 200⟩
    total_cost := 1
    call_count := 2 }

/-- A freshly constructed manager with both providers registered. -/
def m0b : LLMManager :=
  { primary_provider := some "openai"
    providers := ["openai", "anthropic"]
    total_usage := {}
    total_cost := 0
    call_count := 0 }

/-- Two sample adapter responses. -/
def respA : LLMResponse :=
  { content := "alpha", model := "gpt-4o", tokens := ⟨10, 20, 30⟩
    cost := 1 / 100, latency := 1, provider := "openai" }

/-- Second sample adapter response. -/
def respB : LLMResponse :=
  { content := "beta", model := "gpt-4o", tokens := ⟨5, 7, 12⟩
    cost := 3 / 100, latency := 2, provider := "openai" }

/-- The roster of the six-turn scenario. -/
def roster4 : List String := ["coordinator", "moderator", "expert_1", "expert_2"]

/-- A provider oracle that answers the first two turns and raises on the
third (turn index 2). -/
def failAtTurn3 : Nat → Except String String :=
  fun i => if i < 2 then .ok "reply" else .error "ProviderCallError: backend failure"

/-- Sum of the costs of a list of responses. -/
def sumCost (rs : List LLMResponse) : ℚ := (rs.map (fun r => r.cost)).sum

/-- Sum of the usages of a list of responses. -/
def sumUsage (rs : List LLMResponse) : TokenUsage :=
  (rs.map (fun r => r.tokens)).foldr (· + ·) {}

/-! Helper lemmas shared by the claim theorems. -/

lemma tu_add_def (a b : TokenUsage) : a + b = TokenUsage.add a b := rfl

lemma tu_add_assoc (a b c : TokenUsage) : a + b + c = a + (b + c) := by
  simp [tu_add_def, TokenUsage.add, add_assoc]

lemma tu_add_comm (a b : TokenUsage) : a + b = b + a := by
  simp [tu_add_def, TokenUsage.add, add_comm]

lemma tu_zero_add (a : TokenUsage) : TokenUsage.zero + a = a := by
  cases a; simp [tu_add_def, TokenUsage.add, TokenUsage.zero]

lemma tu_add_zero (a : TokenUsage) : a + TokenUsage.zero = a := by
  cases a; simp [tu_add_def, TokenUsage.add, TokenUsage.zero]

lemma resolve_ok_of_ne_nil (m : LLMManager) (requested : Option String)
    (h : m.providers ≠ []) : ∃ pr : String × Bool,
    m.resolve requested = .ok pr ∧ pr.1 ∈ m.providers := by
  unfold LLMManager.resolve
  by_cases hm : requested.getD (m.primary_provider.getD "anthropic") ∈ m.providers
  · exact ⟨_, by rw [if_pos hm], hm⟩
  · rw [if_neg hm]
    cases hp : m.providers with
    | nil => exact absurd hp h
    | cons p rest => exact ⟨(p, true), rfl, List.mem_cons_self p rest⟩

lemma roundHalfEven_mono {x y : ℚ} (h : x ≤ y) : roundHalfEven x ≤ roundHalfEven y := by
  have hf : ⌊x⌋ ≤ ⌊y⌋ := Int.floor_mono h
  rcases eq_or_lt_of_le hf with heq | hlt
  · have hr : x - (⌊x⌋ : ℚ) ≤ y - (⌊x⌋ : ℚ) := by linarith
    unfold roundHalfEven
    rw [← heq]
    split_ifs <;> first | omega | (exfalso; linarith)
  · unfold roundHalfEven
    split_ifs <;> omega

lemma pyRound_mono {x y : ℚ} (h : x ≤ y) (n : Nat) : pyRound x n ≤ pyRound y n := by
  have hpow : (0 : ℚ) < (10 : ℚ) ^ n := by positivity
  have h2 : ((roundHalfEven (x * 10 ^ n) : ℤ) : ℚ) ≤ ((roundHalfEven (y * 10 ^ n) : ℤ) : ℚ) := by
    exact_mod_cast roundHalfEven_mono (mul_le_mul_of_nonneg_right h hpow.le)
  unfold pyRound
  exact (div_le_div_iff_of_pos_right hpow).mpr h2

/-- C6: TokenUsage addition is componentwise — for all values `a, b` the
prompt, completion and total components of `a + b` are the sums of the
respective components — and the addition is commutative and associative with
the default-constructed all-zero value as a two-sided additive identity. -/
theorem tokenUsage_add_algebra :
    (∀ a b : TokenUsage,
      (a + b).prompt_tokens = a.prompt_tokens + b.prompt_tokens ∧
      (a + b).completion_tokens = a.completion_tokens + b.completion_tokens ∧
      (a + b).total_tokens = a.total_tokens + b.total_tokens) ∧
    (∀ a b : TokenUsage, a + b = b + a) ∧
    (∀ a b c : TokenUsage, a + b + c = a + (b + c)) ∧
    (∀ a : TokenUsage, TokenUsage.zero + a = a ∧ a + TokenUsage.zero = a) := by
  exact ⟨fun a b => ⟨rfl, rfl, rfl⟩, tu_add_comm, tu_add_assoc,
    fun a => ⟨tu_zero_add a, tu_add_zero a⟩⟩

/-- C8 (code bug): the fallback token count for `"hello world"` is
`2 * 1.3 = 13/5` on both adapters — an unrounded fraction, not an integer,
although both `count_tokens` methods are annotated `-> int`. -/
theorem count_tokens_fallback_unrounded :
    ap0.count_tokens "hello world" = 13 / 5 ∧
    op0.count_tokens none "hello world" = 13 / 5 ∧
    (∀ n : ℤ, ap0.count_tokens "hello world" ≠ (n : ℚ)) := by
  have hwc : wordCount "hello world" = 2 := by decide
  have hval : ap0.count_tokens "hello world" = 13 / 5 := by
    simp only [AnthropicProvider.count_tokens, hwc]
    norm_num
  refine ⟨hval, ?_, ?_⟩
  · simp only [OpenAIProvider.count_tokens, hwc]
    norm_num
  · intro n hn
    rw [hval] at hn
    have h1 : (2 : ℚ) < (n : ℚ) := by rw [← hn]; norm_num
    have h2 : ((n : ℚ)) < 3 := by rw [← hn]; norm_num
    have h1i : (2 : ℤ) < n := by exact_mod_cast h1
    have h2i : n < (3 : ℤ) := by exact_mod_cast h2
    omega

/-- C7: `estimate_cost` is a pure function computing
`prompt/1000 * input_rate + completion/1000 * output_rate` from the pricing
entry of the adapter model id, with the designated default entry when the
model id is absent; for an unknown model id with 1000 prompt and 500
completion tokens the cost is `(1000/1000)*default_input +
(500/1000)*default_output` on both adapters. -/
theorem estimate_cost_spec :
    (∀ (p : OpenAIProvider) (t : TokenUsage),
      p.estimate_cost t = t.prompt_tokens / 1000 * p.priceEntry.1
        + t.completion_tokens / 1000 * p.priceEntry.2) ∧
    (∀ p : OpenAIProvider, List.lookup p.model openaiPricing = none →
      p.priceEntry = openaiDefaultPrice) ∧
    (∀ (p : AnthropicProvider) (t : TokenUsage),
      p.estimate_cost t = t.prompt_tokens / 1000 * p.priceEntry.1
        + t.completion_tokens / 1000 * p.priceEntry.2) ∧
    (∀ p : AnthropicProvider, List.lookup p.model anthropicPricing = none →
      p.priceEntry = anthropicDefaultPrice) ∧
    opUnknown.estimate_cost ⟨1000, 500, 1500⟩
      = 1000 / 1000 * openaiDefaultPrice.1 + 500 / 1000 * openaiDefaultPrice.2 ∧
    apUnknown.estimate_cost ⟨1000, 500, 1500⟩
      = 1000 / 1000 * anthropicDefaultPrice.1 + 500 / 1000 * anthropicDefaultPrice.2 := by
  refine ⟨fun p t => rfl, ?_, fun p t => rfl, ?_, ?_, ?_⟩
  · intro p h
    unfold OpenAIProvider.priceEntry
    rw [h]
    rfl
  · intro p h
    unfold AnthropicProvider.priceEntry
    rw [h]
    rfl
  · have hl : List.lookup opUnknown.model openaiPricing = none := by decide
    simp only [OpenAIProvider.estimate_cost, OpenAIProvider.priceEntry, hl, Option.getD]
  · have hl : List.lookup apUnknown.model anthropicPricing = none := by decide
    simp only [AnthropicProvider.estimate_cost, AnthropicProvider.priceEntry, hl, Option.getD]

/-- C7 witness: the fallback branches of `estimate_cost_spec` discharged at
the concrete unknown-model adapters. -/
theorem estimate_cost_spec_witness :
    opUnknown.priceEntry = openaiDefaultPrice ∧
    apUnknown.priceEntry = anthropicDefaultPrice :=
  ⟨estimate_cost_spec.2.1 opUnknown (by decide),
   estimate_cost_spec.2.2.2.1 apUnknown (by decide)⟩

/-- C1 counterexample: an Anthropic `generate` with user message `"a"` and
backend completion `"b"` yields `total_tokens = 13/10` (one word in the
concatenation `"ab"`) while `prompt_tokens + completion_tokens = 13/5`, so
the invariant `total_tokens == prompt_tokens + completion_tokens` fails on
a value produced by an adapter. -/
theorem usage_total_counterexample :
    (ap0.generate [⟨"user", "a"⟩] (.ok "b") 0).map
        (fun r => (r.tokens.total_tokens,
                   r.tokens.prompt_tokens + r.tokens.completion_tokens))
      = .ok (13 / 10, 13 / 5) ∧ (13 / 10 : ℚ) ≠ 13 / 5 := by
  constructor
  · simp only [AnthropicProvider.generate, Except.map, anthropicPromptText, extractSystem,
      AnthropicProvider.count_tokens, List.foldl]
    norm_num
    constructor
    · simp [show wordCount "ab" = 1 from by decide]
    · simp [show wordCount "a" = 1 from by decide, show wordCount "b" = 1 from by decide]
      norm_num
  · norm_num

/-- C1 amended: the OpenAI adapter copies the backend usage triple verbatim,
so its results satisfy `total == prompt + completion` exactly when the
backend report does; the Anthropic adapter counts the total over the
concatenated prompt and completion texts, so its results satisfy the
invariant exactly when no words merge at the concatenation boundary, i.e.
when the word count of the concatenation is the sum of the word counts. -/
theorem usage_total_invariant_amended :
    (∀ (p : OpenAIProvider) (r : ChatResponse) (lat : ℚ) (resp : LLMResponse),
      p.generate (.ok r) lat = .ok resp →
      (resp.tokens.total_tokens
          = resp.tokens.prompt_tokens + resp.tokens.completion_tokens ↔
        r.usage.total_tokens = r.usage.prompt_tokens + r.usage.completion_tokens)) ∧
    (∀ (p : AnthropicProvider) (messages : List Message) (completion : String)
      (lat : ℚ) (resp : LLMResponse),
      p.generate messages (.ok completion) lat = .ok resp →
      (resp.tokens.total_tokens
          = resp.tokens.prompt_tokens + resp.tokens.completion_tokens ↔
        wordCount (anthropicPromptText messages ++ completion)
          = wordCount (anthropicPromptText messages) + wordCount completion)) := by
  constructor
  · intro p r lat resp hgen
    simp only [OpenAIProvider.generate, Except.ok.injEq] at hgen
    subst hgen
    show ((r.usage.total_tokens : ℚ)
        = (r.usage.prompt_tokens : ℚ) + (r.usage.completion_tokens : ℚ)) ↔ _
    constructor
    · intro h
      exact_mod_cast h
    · intro h
      exact_mod_cast h
  · intro p messages completion lat resp hgen
    simp only [AnthropicProvider.generate, Except.ok.injEq] at hgen
    subst hgen
    show ((wordCount (anthropicPromptText messages ++ completion) : ℚ) * 1.3
        = (wordCount (anthropicPromptText messages) : ℚ) * 1.3
          + (wordCount completion : ℚ) * 1.3) ↔ _
    have h13 : (1.3 : ℚ) ≠ 0 := by norm_num
    constructor
    · intro h
      rw [← add_mul] at h
      have h2 : (wordCount (anthropicPromptText messages ++ completion) : ℚ)
          = (wordCount (anthropicPromptText messages) : ℚ)
            + (wordCount completion : ℚ) := mul_right_cancel₀ h13 h
      exact_mod_cast h2
    · intro h
      have h2 : (wordCount (anthropicPromptText messages ++ completion) : ℚ)
          = (wordCount (anthropicPromptText messages) : ℚ)
            + (wordCount completion : ℚ) := by exact_mod_cast h
      rw [h2, add_mul]

/-- C1 witness: both amended branches at concrete inputs — a consistent
backend report for OpenAI, and an Anthropic prompt ending in a space so that
no boundary words merge. -/
theorem usage_total_invariant_amended_witness :
    (∃ resp, op0.generate (.ok ⟨"hi", ⟨3, 4, 7⟩⟩) 0 = .ok resp ∧
      resp.tokens.total_tokens
        = resp.tokens.prompt_tokens + resp.tokens.completion_tokens) ∧
    (∃ resp, ap0.generate [⟨"user", "a "⟩] (.ok "b") 0 = .ok resp ∧
      resp.tokens.total_tokens
        = resp.tokens.prompt_tokens + resp.tokens.completion_tokens) :=
  ⟨⟨_, rfl, (usage_total_invariant_amended.1 op0 ⟨"hi", ⟨3, 4, 7⟩⟩ 0 _ rfl).mpr (by decide)⟩,
   ⟨_, rfl, (usage_total_invariant_amended.2 ap0 [⟨"user", "a "⟩] "b" 0 _ rfl).mpr (by decide)⟩⟩

/-- C9: with roster `[coordinator, moderator, expert_1, expert_2]` and a turn
ceiling of 6, the scheduler produces exactly 6 transcript entries in the
cyclic roster order, whatever the (always-successful) generated contents
are. -/
theorem scheduler_round_robin (f : Nat → String) :
    runTurns roster4 6 (fun i => .ok (f i))
      = .ok [("coordinator", f 0), ("moderator", f 1), ("expert_1", f 2),
             ("expert_2", f 3), ("coordinator", f 4), ("moderator", f 5)] := rfl

/-- C4 counterexample: with the four-participant roster and a six-turn
ceiling, a provider error raised on turn 3 makes `run_simulation` return the
bare error dict, which carries zero transcript entries — not a failed result
containing the 2 entries completed before the failure. -/
theorem failed_run_counterexample :
    run_simulation roster4 6 failAtTurn3
        = .failure "ProviderCallError: backend failure" ∧
    (run_simulation roster4 6 failAtTurn3).entries.length ≠ 2 := by
  constructor
  · rfl
  · have h : run_simulation roster4 6 failAtTurn3
        = .failure "ProviderCallError: backend failure" := rfl
    rw [h]
    decide

lemma runTurnsFrom_error (roster : List String) (oracle : Nat → Except String String)
    (e : String) :
    ∀ (k start fuel : Nat), k < fuel →
      (∀ i, i < k → ∃ c, oracle (start + i) = .ok c) →
      oracle (start + k) = .error e →
      runTurnsFrom roster oracle start fuel = .error e := by
  intro k
  induction k with
  | zero =>
    intro start fuel hk _ herr
    match fuel, hk with
    | fuel + 1, _ =>
      unfold runTurnsFrom
      rw [Nat.add_zero] at herr
      rw [herr]
  | succ k ih =>
    intro start fuel hk hok herr
    match fuel, hk with
    | fuel + 1, hk =>
      obtain ⟨c, hc⟩ := hok 0 (Nat.succ_pos k)
      rw [Nat.add_zero] at hc
      unfold runTurnsFrom
      rw [hc]
      have hrec : runTurnsFrom roster oracle (start + 1) fuel = .error e := by
        apply ih (start + 1) fuel (by omega)
        · intro i hi
          have := hok (i + 1) (by omega)
          rwa [show start + (i + 1) = start + 1 + i by omega] at this
        · rwa [show start + 1 + k = start + (k + 1) by omega]
      rw [hrec]

/-- C4 amended: when the oracle answers every turn before turn `k` and
raises on turn `k` (within the ceiling), the session aborts and
`run_simulation` returns the failed result carrying only the error message;
the transcript entries completed before the failure are discarded — the
failed result contains no transcript entries at all. -/
theorem failed_run_discards_transcript :
    ∀ (roster : List String) (oracle : Nat → Except String String)
      (ceiling k : Nat) (e : String),
      k < ceiling →
      (∀ i, i < k → ∃ c, oracle i = .ok c) →
      oracle k = .error e →
      run_simulation roster ceiling oracle = .failure e ∧
      (run_simulation roster ceiling oracle).entries = [] := by
  intro roster oracle ceiling k e hk hok herr
  have h : runTurns roster ceiling oracle = .error e := by
    apply runTurnsFrom_error roster oracle e k 0 ceiling hk
    · intro i hi
      simpa using hok i hi
    · simpa using herr
  constructor
  · unfold run_simulation
    rw [h]
  · unfold run_simulation
    rw [h]
    rfl

/-- C4 amended witness: the amended statement at the concrete failing
scenario (failure on turn 3 of a 6-turn run). -/
theorem failed_run_discards_transcript_witness :
    run_simulation roster4 6 failAtTurn3
        = .failure "ProviderCallError: backend failure" ∧
    (run_simulation roster4 6 failAtTurn3).entries = [] :=
  failed_run_discards_transcript roster4 failAtTurn3 6 2
    "ProviderCallError: backend failure" (by omega)
    (fun i hi => ⟨"reply", by interval_cases i <;> rfl⟩) rfl

/-- C3: provider resolution — with no requested id the configured default is
used when registered (no fallback warning); an unregistered requested id
falls back to the first provider in registration order with a warning rather
than an error, as long as some provider is registered; and constructing a
manager with zero successfully constructed providers raises the
no-provider-available error. -/
theorem provider_resolution :
    (∀ (m : LLMManager) (d : String),
      m.primary_provider = some d → d ∈ m.providers →
      m.resolve none = .ok (d, false)) ∧
    (∀ (m : LLMManager) (c p : String) (rest : List String),
      m.providers = p :: rest → c ∉ m.providers →
      m.resolve (some c) = .ok (p, true)) ∧
    (∀ (primary : Option String) (e : InitEnv), initProviders e = [] →
      mkManager primary e
        = .error "No LLM providers available. Check your API keys and installations.") := by
  refine ⟨?_, ?_, ?_⟩
  · intro m d hd hmem
    unfold LLMManager.resolve
    rw [hd]
    simp only [Option.getD_none, Option.getD_some]
    rw [if_pos hmem]
  · intro m c p rest hps hmem
    unfold LLMManager.resolve
    simp only [Option.getD_some]
    rw [if_neg hmem, hps]
  · intro primary e he
    unfold mkManager
    rw [he]
    rfl

/-- C3 witness: the three branches at concrete inputs — a two-provider
manager with default `openai`, the same manager asked for an unregistered
id, and a construction attempt in which neither adapter succeeds. -/
theorem provider_resolution_witness :
    m0b.resolve none = .ok ("openai", false) ∧
    m0b.resolve (some "missing") = .ok ("openai", true) ∧
    mkManager none ⟨false, false, false, false⟩
      = .error "No LLM providers available. Check your API keys and installations." :=
  ⟨provider_resolution.1 m0b "openai" rfl (by decide),
   provider_resolution.2.1 m0b "missing" "openai" ["anthropic"] rfl (by decide),
   provider_resolution.2.2 none ⟨false, false, false, false⟩ rfl⟩

/-- C10: a successfully constructed manager has a non-empty provider mapping,
so `resolve` always dispatches to some registered provider and the
no-provider error branch inside `generate` is unreachable for it: `resolve`
never returns an error for any requested id. -/
theorem manager_dispatch_total :
    ∀ (primary : Option String) (e : InitEnv) (m : LLMManager),
      mkManager primary e = .ok m →
      ∀ requested : Option String,
        (∃ pr : String × Bool,
          m.resolve requested = .ok pr ∧ pr.1 ∈ m.providers) ∧
        (∀ msg : String, m.resolve requested ≠ .error msg) := by
  intro primary e m hmk requested
  have hne : m.providers ≠ [] := by
    unfold mkManager at hmk
    by_cases hemp : (initProviders e).isEmpty
    · rw [if_pos hemp] at hmk
      exact absurd hmk (by simp)
    · rw [if_neg hemp] at hmk
      simp only [Except.ok.injEq] at hmk
      subst hmk
      simpa [List.isEmpty_iff] using hemp
  obtain ⟨pr, hpr, hmem⟩ := resolve_ok_of_ne_nil m requested hne
  refine ⟨⟨pr, hpr, hmem⟩, ?_⟩
  intro msg hmsg
  rw [hpr] at hmsg
  exact Except.noConfusion hmsg

/-- C10 witness: the theorem at a concrete successful construction (OpenAI
branch attempted and succeeding). -/
theorem manager_dispatch_total_witness :
    (∃ pr : String × Bool,
      (LLMManager.mk (some "openai") ["openai"] {} 0 0).resolve none = .ok pr ∧
      pr.1 ∈ (LLMManager.mk (some "openai") ["openai"] {} 0 0).providers) ∧
    (∀ msg : String,
      (LLMManager.mk (some "openai") ["openai"] {} 0 0).resolve none ≠ .error msg) :=
  manager_dispatch_total (some "openai") ⟨true, true, false, false⟩
    (LLMManager.mk (some "openai") ["openai"] {} 0 0) rfl none

/-- C2: running N consecutive successful calls through the manager adds
exactly the sum of the individual costs to `total_cost`, the sum of the
individual usages to `total_usage`, and N to `call_count` (exact rational
sums, hence within any floating-point tolerance); and when the dispatched
provider call raises, `generate` propagates the error before any of the
three accumulator updates runs, so the failed call contributes nothing —
the update is all-or-nothing. -/
theorem accumulator_sums :
    (∀ (m : LLMManager) (rs : List LLMResponse), m.providers ≠ [] →
      ∃ m', m.runOk rs = .ok m' ∧
        m'.providers = m.providers ∧
        m'.call_count = m.call_count + rs.length ∧
        m'.total_cost = m.total_cost + sumCost rs ∧
        m'.total_usage = m.total_usage + sumUsage rs) ∧
    (∀ (m : LLMManager) (requested : Option String)
      (call : String → Except String LLMResponse) (p : String) (w : Bool)
      (e : String),
      m.resolve requested = .ok (p, w) → call p = .error e →
      m.generate requested call = .error e) := by
  constructor
  · intro m rs
    induction rs generalizing m with
    | nil =>
      intro hne
      refine ⟨m, rfl, rfl, ?_, ?_, ?_⟩
      · simp
      · simp [sumCost]
      · exact (tu_add_zero m.total_usage).symm
    | cons r rest ih =>
      intro hne
      obtain ⟨⟨p, w⟩, hpr, _⟩ := resolve_ok_of_ne_nil m none hne
      have hgen : m.generate none (fun _ => .ok r)
          = .ok ({ m with
                    total_usage := m.total_usage + r.tokens
                    total_cost := m.total_cost + r.cost
                    call_count := m.call_count + 1 }, r, w) := by
        unfold LLMManager.generate
        rw [hpr]
      obtain ⟨m', hrun, hprov, hcount, hcost, husage⟩ :=
        ih { m with
              total_usage := m.total_usage + r.tokens
              total_cost := m.total_cost + r.cost
              call_count := m.call_count + 1 } hne
      refine ⟨m', ?_, hprov, ?_, ?_, ?_⟩
      · unfold LLMManager.runOk
        rw [hgen]
        exact hrun
      · rw [hcount]
        show m.call_count + 1 + rest.length = m.call_count + (r :: rest).length
        simp only [List.length_cons]
        omega
      · rw [hcost]
        simp only [sumCost, List.map_cons, List.sum_cons]
        ring
      · rw [husage]
        show m.total_usage + r.tokens + sumUsage rest
          = m.total_usage + sumUsage (r :: rest)
        rw [tu_add_assoc]
        rfl
  · intro m requested call p w e hres hcall
    unfold LLMManager.generate
    rw [hres]
    simp only [hcall]

/-- C2 witness: two successful calls through the one-provider mid-session
manager sum as stated, and a raising call on the fresh two-provider manager
propagates its error untouched. -/
theorem accumulator_sums_witness :
    (∃ m', m0a.runOk [respA, respB] = .ok m' ∧
      m'.providers = m0a.providers ∧
      m'.call_count = m0a.call_count + 2 ∧
      m'.total_cost = m0a.total_cost + sumCost [respA, respB] ∧
      m'.total_usage = m0a.total_usage + sumUsage [respA, respB]) ∧
    m0b.generate none (fun _ => .error "ProviderCallError") = .error "ProviderCallError" :=
  ⟨(accumulator_sums.1 m0a [respA, respB] (by decide)),
   accumulator_sums.2 m0b none (fun _ => .error "ProviderCallError") "openai" false
     "ProviderCallError" rfl rfl⟩

/-- C5 counterexample: on the mid-session manager (2 calls recorded), two
`get_analytics` snapshots taken with no intervening `generate` call, at 30
and 120 elapsed seconds, differ in `calls_per_minute` (2 vs 1) — a field
other than the elapsed-duration field — because the performance rates are
also functions of elapsed time. -/
theorem analytics_snapshot_counterexample :
    (30 : ℚ) ≤ 120 ∧
    (m0a.getAnalytics 30).calls_per_minute = 2 ∧
    (m0a.getAnalytics 120).calls_per_minute = 1 ∧
    (m0a.getAnalytics 30).calls_per_minute
      ≠ (m0a.getAnalytics 120).calls_per_minute := by
  have h30 : (m0a.getAnalytics 30).calls_per_minute = 2 := by
    simp only [LLMManager.getAnalytics, pyRound, roundHalfEven, m0a, max_def]
    norm_num
  have h120 : (m0a.getAnalytics 120).calls_per_minute = 1 := by
    simp only [LLMManager.getAnalytics, pyRound, roundHalfEven, m0a, max_def]
    norm_num
  refine ⟨by norm_num, h30, h120, ?_⟩
  rw [h30, h120]
  norm_num

/-- C5 amended: two `get_analytics` snapshots with no intervening `generate`
call agree on every field that is not derived from elapsed time (call count,
provider list, primary provider, the token-usage triple and all three cost
fields), and the elapsed-duration field is monotonically non-decreasing; the
two performance fields are also functions of elapsed time and may differ
between the snapshots. -/
theorem analytics_snapshot_amended :
    ∀ (m : LLMManager) (e1 e2 : ℚ), e1 ≤ e2 →
      (m.getAnalytics e1).total_calls = (m.getAnalytics e2).total_calls ∧
      (m.getAnalytics e1).providers_used = (m.getAnalytics e2).providers_used ∧
      (m.getAnalytics e1).primary_provider = (m.getAnalytics e2).primary_provider ∧
      (m.getAnalytics e1).prompt_tokens = (m.getAnalytics e2).prompt_tokens ∧
      (m.getAnalytics e1).completion_tokens = (m.getAnalytics e2).completion_tokens ∧
      (m.getAnalytics e1).total_tokens = (m.getAnalytics e2).total_tokens ∧
      (m.getAnalytics e1).total_cost_usd = (m.getAnalytics e2).total_cost_usd ∧
      (m.getAnalytics e1).average_cost_per_call
        = (m.getAnalytics e2).average_cost_per_call ∧
      (m.getAnalytics e1).estimated_cost_per_1k_tokens
        = (m.getAnalytics e2).estimated_cost_per_1k_tokens ∧
      (m.getAnalytics e1).duration_minutes ≤ (m.getAnalytics e2).duration_minutes := by
  intro m e1 e2 h
  refine ⟨rfl, rfl, rfl, rfl, rfl, rfl, rfl, rfl, rfl, ?_⟩
  show pyRound (e1 / 60) 2 ≤ pyRound (e2 / 60) 2
  exact pyRound_mono (by linarith) 2

/-- C5 amended witness: the amended statement at the mid-session manager and
the elapsed pair 30 ≤ 120 seconds. -/
theorem analytics_snapshot_amended_witness :
    (m0a.getAnalytics 30).total_calls = (m0a.getAnalytics 120).total_calls ∧
    (m0a.getAnalytics 30).providers_used = (m0a.getAnalytics 120).providers_used ∧
    (m0a.getAnalytics 30).primary_provider = (m0a.getAnalytics 120).primary_provider ∧
    (m0a.getAnalytics 30).prompt_tokens = (m0a.getAnalytics 120).prompt_tokens ∧
    (m0a.getAnalytics 30).completion_tokens = (m0a.getAnalytics 120).completion_tokens ∧
    (m0a.getAnalytics 30).total_tokens = (m0a.getAnalytics 120).total_tokens ∧
    (m0a.getAnalytics 30).total_cost_usd = (m0a.getAnalytics 120).total_cost_usd ∧
    (m0a.getAnalytics 30).average_cost_per_call
      = (m0a.getAnalytics 120).average_cost_per_call ∧
    (m0a.getAnalytics 30).estimated_cost_per_1k_tokens
      = (m0a.getAnalytics 120).estimated_cost_per_1k_tokens ∧
    (m0a.getAnalytics 30).duration_minutes ≤ (m0a.getAnalytics 120).duration_minutes :=
  analytics_snapshot_amended m0a 30 120 (by norm_num)

end ExpertPanel
